import Mathlib

/-!
Verification development for the spherical-geodesy core of `tracker_script.js`
(classes `Dms` and `LatLonSpherical`).

Modelling conventions:
* JavaScript numbers are modelled by `ℚ` where only finite values flow
  (the wrap functions, formatting of finite angles, compass points), and by
  `JsNum` (`nan`/`posInf`/`negInf`/`fin ℚ`) where the code's guards
  distinguish non-finite values.  The trigonometric geodesy operations
  (`intersection`, `areaOf`) are modelled over `ℝ`.
* The JavaScript `%` operator is a remainder (truncated division); the code's
  `((x%n)+n)%n` idiom is `jsMod`.
* Built-in numeric/string conversions (`Number(...)`, `parseFloat`,
  `toFixed`, `String.prototype.trim/split/replace`) are modelled after their
  ECMAScript definitions restricted to plain decimal notation (no exponents,
  no hex), which covers every string this program produces or consumes in
  the claims below.
-/

/-- Truncation toward zero, as used by the JavaScript `%` remainder. -/
def jsTrunc {α : Type} [LinearOrderedField α] [FloorRing α] (q : α) : ℤ :=
  if q < 0 then ⌈q⌉ else ⌊q⌋

/-- JavaScript remainder `x % n` (sign follows the dividend). -/
def jsRem {α : Type} [LinearOrderedField α] [FloorRing α] (x n : α) : α :=
  x - n * (jsTrunc (x / n) : ℤ)

/-- True modulo via the JavaScript idiom `((x % n) + n) % n`. -/
def jsMod {α : Type} [LinearOrderedField α] [FloorRing α] (x n : α) : α :=
  jsRem (jsRem x n + n) n

/-- JavaScript `Math.round`: round half toward positive infinity. -/
def jsRound {α : Type} [LinearOrderedField α] [FloorRing α] (q : α) : ℤ :=
  ⌊q + 1 / 2⌋

namespace Dms

/-- `Dms.wrap90`: constrain degrees to -90..+90 (triangle wave, period 360,
amplitude 90), skipping the formula when already in range. -/
def wrap90 {α : Type} [LinearOrderedField α] [FloorRing α] (degrees : α) : α :=
  if -90 ≤ degrees ∧ degrees ≤ 90 then degrees
  else 4 * 90 / 360 * |jsMod (degrees - 360 / 4) 360 - 360 / 2| - 90

/-- `Dms.wrap180`: constrain degrees to -180..+180 (sawtooth wave), skipping
the formula when already in range. -/
def wrap180 {α : Type} [LinearOrderedField α] [FloorRing α] (degrees : α) : α :=
  if -180 ≤ degrees ∧ degrees ≤ 180 then degrees
  else jsMod (2 * 180 * degrees / 360 - 360 / 2) 360 - 180

/-- `Dms.wrap360`: constrain degrees to 0..360 (offset sawtooth wave),
skipping the formula when already in range. -/
def wrap360 {α : Type} [LinearOrderedField α] [FloorRing α] (degrees : α) : α :=
  if 0 ≤ degrees ∧ degrees < 360 then degrees
  else jsMod (2 * 180 * degrees / 360) 360

end Dms

/-! ### JavaScript value model -/

/-- A JavaScript number: NaN, the two infinities, or a finite value. -/
inductive JsNum : Type
  | nan : JsNum
  | posInf : JsNum
  | negInf : JsNum
  | fin : ℚ → JsNum
deriving DecidableEq

/-- A JavaScript value as it may reach the `Dms`/`LatLonSpherical` entry
points: a number, a string, a boolean, or `null`. -/
inductive JsVal : Type
  | num : JsNum → JsVal
  | str : String → JsVal
  | bool : Bool → JsVal
  | null : JsVal
deriving DecidableEq

namespace JsNum

/-- `Math.abs`. -/
def jabs : JsNum → JsNum
  | nan => nan
  | posInf => posInf
  | negInf => posInf
  | fin q => fin |q|

/-- Unary minus. -/
def jneg : JsNum → JsNum
  | nan => nan
  | posInf => negInf
  | negInf => posInf
  | fin q => fin (-q)

/-- Addition (`Infinity + -Infinity` is NaN). -/
def jadd : JsNum → JsNum → JsNum
  | nan, _ => nan
  | _, nan => nan
  | posInf, negInf => nan
  | negInf, posInf => nan
  | posInf, _ => posInf
  | _, posInf => posInf
  | negInf, _ => negInf
  | _, negInf => negInf
  | fin a, fin b => fin (a + b)

/-- Multiplication by a positive rational constant (only `60`/`3600` are
used, so the infinite cases keep their sign). -/
def jmulPos : JsNum → ℚ → JsNum
  | nan, _ => nan
  | posInf, _ => posInf
  | negInf, _ => negInf
  | fin q, c => fin (q * c)

/-- Division by a positive rational constant (only `1`/`60`/`3600` are
used, so the infinite cases keep their sign). -/
def jdivPos : JsNum → ℚ → JsNum
  | nan, _ => nan
  | posInf, _ => posInf
  | negInf, _ => negInf
  | fin q, c => fin (q / c)

/-- JavaScript `%` by a finite positive constant: NaN for non-finite
dividends. -/
def jremPos : JsNum → ℚ → JsNum
  | fin q, n => fin (jsRem q n)
  | _, _ => nan

/-- `Math.floor` (identity on NaN and the infinities). -/
def jfloor : JsNum → JsNum
  | fin q => fin ⌊q⌋
  | x => x

/-- The `++` increment. -/
def jsucc : JsNum → JsNum
  | fin q => fin (q + 1)
  | x => x

/-- Loose numeric equality against a rational literal; false on NaN and on
the infinities. -/
def jeq : JsNum → ℚ → Bool
  | fin q, c => decide (q = c)
  | _, _ => false

/-- Numeric `<` against a rational literal; false on NaN and `Infinity`,
true on `-Infinity`. -/
def jlt : JsNum → ℚ → Bool
  | fin q, c => decide (q < c)
  | negInf, _ => true
  | _, _ => false

/-- Is this number NaN? -/
def isNaN : JsNum → Bool
  | nan => true
  | _ => false

/-- Global `isFinite` on an already-coerced number. -/
def isFinite : JsNum → Bool
  | fin _ => true
  | _ => false

end JsNum

/-! ### Modelled ECMAScript string built-ins (decimal notation only) -/

/-- Digit run to a natural number. -/
def digitsToNat (l : List Char) : ℕ :=
  l.foldl (fun acc c => acc * 10 + (c.toNat - 48)) 0

/-- Value of an integer digit run together with a fraction digit run, e.g.
`"12" "25"` is `12.25`. -/
def decValue (intD fracD : List Char) : ℚ :=
  (digitsToNat intD : ℚ) + (digitsToNat fracD : ℚ) / 10 ^ fracD.length

/-- Split an optional leading sign, returning the sign as `1` or `-1`. -/
def splitSign (l : List Char) : ℚ × List Char :=
  match l with
  | '-' :: t => (-1, t)
  | '+' :: t => (1, t)
  | _ => (1, l)

/-- A full string as a decimal numeric literal: `[+-]?` digits, optional
`'.'` and digits (ECMAScript `StringNumericLiteral` without exponents or
hex).  `none` means NaN. -/
def parseDecFull (l : List Char) : Option ℚ :=
  let (sgn, l1) := splitSign l
  let intD := l1.takeWhile Char.isDigit
  let rest := l1.dropWhile Char.isDigit
  match rest with
  | [] => if intD = [] then none else some (sgn * decValue intD [])
  | '.' :: frac =>
      if frac.all Char.isDigit ∧ ¬(intD = [] ∧ frac = []) then
        some (sgn * decValue intD frac)
      else none
  | _ => none

/-- JavaScript whitespace trim (both ends). -/
def jsTrim (s : String) : String :=
  String.mk (((s.data.dropWhile Char.isWhitespace).reverse.dropWhile
    Char.isWhitespace).reverse)

/-- `Number(string)`: trimmed; empty is 0; `Infinity` forms; otherwise a
full decimal literal, else NaN. -/
def jsStringToNumber (s : String) : JsNum :=
  let t := jsTrim s
  if t = "" then .fin 0
  else if t = "Infinity" ∨ t = "+Infinity" then .posInf
  else if t = "-Infinity" then .negInf
  else match parseDecFull t.data with
    | some q => .fin q
    | none => .nan

/-- `ToNumber` on a JavaScript value (`Number(v)`, and the coercion used by
the global `isNaN`). -/
def jsToNumber : JsVal → JsNum
  | .num n => n
  | .str s => jsStringToNumber s
  | .bool b => .fin (if b then 1 else 0)
  | .null => .fin 0

/-- `isNaN(v)` with its implicit `ToNumber` coercion. -/
def jsIsNaN (v : JsVal) : Bool :=
  (jsToNumber v).isNaN

/-- `parseFloat`: longest decimal-literal prefix after leading-whitespace
strip (`Infinity` recognised); NaN when no digits were consumed. -/
def parseFloatJs (s : String) : JsNum :=
  let l := s.data.dropWhile Char.isWhitespace
  let (sgn, l1) := splitSign l
  if "Infinity".data.isPrefixOf l1 then
    (if sgn < 0 then .negInf else .posInf)
  else
    let intD := l1.takeWhile Char.isDigit
    let rest := l1.dropWhile Char.isDigit
    let fracD := match rest with
      | '.' :: t => t.takeWhile Char.isDigit
      | _ => []
    if intD = [] ∧ fracD = [] then .nan
    else .fin (sgn * decValue intD fracD)

/-- Digits of a natural number, most significant first (fuel-based so the
kernel and `simp` reduce it structurally). -/
def natToCharsAux : ℕ → ℕ → List Char
  | 0, _ => []
  | fuel + 1, n =>
      if n = 0 then []
      else natToCharsAux fuel (n / 10) ++ [Char.ofNat (48 + n % 10)]

/-- Decimal string of a natural number. -/
def natToChars (n : ℕ) : List Char :=
  if n = 0 then ['0'] else natToCharsAux (n + 1) n

/-- Decimal string of an integer. -/
def intToChars (z : ℤ) : List Char :=
  if z < 0 then '-' :: natToChars z.natAbs else natToChars z.natAbs

/-- Left-pad a char list with `'0'` to the given length. -/
def padZeros (l : List Char) (k : ℕ) : List Char :=
  List.replicate (k - l.length) '0' ++ l

/-- `Number.prototype.toFixed(dp)` on a finite value (ECMAScript: sign
split off, then round half away from zero at `dp` decimal places). -/
def toFixedQ (q : ℚ) (dp : ℕ) : String :=
  let sgn : List Char := if q < 0 then ['-'] else []
  let n : ℕ := (⌊|q| * 10 ^ dp + 1 / 2⌋).toNat
  if dp = 0 then String.mk (sgn ++ natToChars n)
  else
    let ds := padZeros (natToChars n) (dp + 1)
    String.mk (sgn ++ ds.take (ds.length - dp) ++ '.' :: ds.drop (ds.length - dp))

/-- `toFixed` lifted to `JsNum` (`"NaN"`, `"Infinity"`, `"-Infinity"` as in
ECMAScript `Number::toString`). -/
def jsnToFixed : JsNum → ℕ → String
  | .nan, _ => "NaN"
  | .posInf, _ => "Infinity"
  | .negInf, _ => "-Infinity"
  | .fin q, dp => toFixedQ q dp

/-- `String(n)` for the numbers this code stringifies: non-finite values
and integer-valued degrees/minutes counters (`Math.floor` results and
their increments), whose denominator is 1. -/
def jsnIntToString : JsNum → String
  | .nan => "NaN"
  | .posInf => "Infinity"
  | .negInf => "-Infinity"
  | .fin q => String.mk (intToChars q.num)

/-- Last `k` characters of a string (`slice(-k)` for `k ≤ length`). -/
def strTakeRight (s : String) (k : ℕ) : String :=
  String.mk (s.data.drop (s.data.length - k))

/-- Drop the first `k` characters (`slice(k)`). -/
def strDrop (s : String) (k : ℕ) : String :=
  String.mk (s.data.drop k)

/-- Does `pat` occur at the head of `l`? -/
def matchesAt : List Char → List Char → Bool
  | [], _ => true
  | _ :: _, [] => false
  | p :: ps, c :: cs => p == c && matchesAt ps cs

/-- Does `pat` occur anywhere in `l`? -/
def containsPat (pat : List Char) : List Char → Bool
  | [] => matchesAt pat []
  | c :: t => matchesAt pat (c :: t) || containsPat pat t

/-- Replace the first occurrence of `pat` (JavaScript
`String.prototype.replace` with a string pattern). -/
def replaceFirstL (pat rep : List Char) : List Char → List Char
  | [] => []
  | c :: t =>
      if matchesAt pat (c :: t) then rep ++ (c :: t).drop pat.length
      else c :: replaceFirstL pat rep t

/-- `s.replace(pat, rep)` — first occurrence only. -/
def replaceFirst (s pat rep : String) : String :=
  String.mk (replaceFirstL pat.data rep.data s.data)

/-- Is `pat` a substring of `s`? -/
def containsSub (s pat : String) : Bool :=
  containsPat pat.data s.data

/-- Is the character in the numeric class `[0-9.,]` kept by the `Dms.parse`
split? -/
def isNumCh (c : Char) : Bool :=
  c.isDigit || c == '.' || c == ','

/-- `String.prototype.split(/[^0-9.,]+/)`: tokens between maximal runs of
non-numeric characters (leading/trailing separators produce an empty
token, as in ECMAScript). Fuel-based recursion; the initial fuel
`l.length` always suffices. -/
def splitNonNumGo : ℕ → List Char → List String
  | fuel, l =>
      let tok := String.mk (l.takeWhile isNumCh)
      let rest := l.dropWhile isNumCh
      match rest, fuel with
      | [], _ => [tok]
      | _, 0 => [tok]
      | _, fuel' + 1 => tok :: splitNonNumGo fuel' (rest.dropWhile (fun c => !isNumCh c))

/-- `s.split(/[^0-9.,]+/)`. -/
def splitNonNum (s : String) : List String :=
  splitNonNumGo s.data.length s.data

namespace Dms

/-- The process-wide degrees/minutes/seconds separator (default
U+202F narrow no-break space); the claims never reconfigure it. -/
def separator : String := "\u202F"

/-- Body of `Dms.parse` after the signed-decimal fast path: strip sign and
compass letter, split into 1/2/3 groups, combine, then apply the sign rule
on the original trimmed string. -/
def parseDmsString (s : String) : JsNum :=
  let t := jsTrim s
  -- .replace(/^-/, '')
  let l1 : List Char := match t.data with
    | '-' :: r => r
    | r => r
  -- .replace(/[NSEW]$/i, '')
  let l2 : List Char :=
    match l1.getLast? with
    | some c => if c ∈ ['N', 'S', 'E', 'W', 'n', 's', 'e', 'w'] then l1.dropLast else l1
    | none => l1
  let parts0 := splitNonNum (String.mk l2)
  -- if (dmsParts[dmsParts.length-1]=='') dmsParts.splice(dmsParts.length-1u)
  let parts := if parts0.getLast? = some "" then parts0.dropLast else parts0
  -- if (dmsParts == '') return NaN  (array-to-string loose comparison)
  if parts = [] ∨ parts = [""] then .nan
  else
    let deg : JsNum :=
      match parts with
      | [a, b, c] =>
          (JsNum.jdivPos (jsStringToNumber a) 1).jadd
            ((JsNum.jdivPos (jsStringToNumber b) 60).jadd
              (JsNum.jdivPos (jsStringToNumber c) 3600))
      | [a, b] =>
          (JsNum.jdivPos (jsStringToNumber a) 1).jadd
            (JsNum.jdivPos (jsStringToNumber b) 60)
      | [a] => jsStringToNumber a
      | _ => .nan
    -- if (/^-|[WS]$/i.test(dms.trim())) deg = -deg
    let negate : Bool :=
      decide (t.data.head? = some '-') ||
        (match t.data.getLast? with
         | some c => decide (c ∈ ['W', 'S', 'w', 's'])
         | none => false)
    if negate then deg.jneg else deg

/-- `Dms.parse`: a finite number (or a string passing
`!isNaN(parseFloat(x)) && isFinite(x)`) is returned directly; everything
else goes through the deg/min/sec string grammar of `parseDmsString`
applied to `String(x)`. -/
def parse : JsVal → JsNum
  | .num (.fin q) => .fin q
  | .num .nan => parseDmsString "NaN"
  | .num .posInf => parseDmsString "Infinity"
  | .num .negInf => parseDmsString "-Infinity"
  | .bool b => parseDmsString (if b then "true" else "false")
  | .null => parseDmsString "null"
  | .str s =>
      if ¬ (parseFloatJs s).isNaN = true ∧ (jsStringToNumber s).isFinite = true then
        jsStringToNumber s
      else parseDmsString s

/-- Is the value a string that trims to empty? (`typeof deg == 'string' &&
deg.trim() == ''`). -/
def isEmptyStr : JsVal → Bool
  | .str s => jsTrim s = ""
  | _ => false

/-- Is the value a boolean? -/
def isBoolVal : JsVal → Bool
  | .bool _ => true
  | _ => false

/-- The format/decimal-places defaulting of `Dms.toDms`: explicit `dp` is
kept; otherwise it defaults per style, and an unknown style falls back to
`('d', 4)`. -/
def toDmsDefaults (format : String) (dp : Option ℕ) : String × ℕ :=
  match dp with
  | some k => (format, k)
  | none =>
      if format = "d" ∨ format = "deg" then (format, 4)
      else if format = "dm" ∨ format = "deg+min" then (format, 2)
      else if format = "dms" ∨ format = "deg+min+sec" then (format, 0)
      else ("d", 4)

/-- The formatting core of `Dms.toDms` applied to the absolute value `a`;
the `switch` places `default:` on the `'d'` branch. -/
def toDmsCore (a : JsNum) (format : String) (dp : ℕ) : String :=
  if format = "dm" ∨ format = "deg+min" then
    let d := a.jfloor
    let m0 := jsnToFixed ((a.jmulPos 60).jremPos 60) dp
    let md : String × JsNum :=
      if (jsStringToNumber m0).jeq 60 then (toFixedQ 0 dp, d.jsucc) else (m0, d)
    let dStr := strTakeRight ("000" ++ jsnIntToString md.2) 3
    let mStr := if (jsStringToNumber md.1).jlt 10 then "0" ++ md.1 else md.1
    dStr ++ "°" ++ separator ++ mStr ++ "′"
  else if format = "dms" ∨ format = "deg+min+sec" then
    let d := a.jfloor
    let m := (((a.jmulPos 3600).jdivPos 60).jfloor).jremPos 60
    let s0 := jsnToFixed ((a.jmulPos 3600).jremPos 60) dp
    let sm : String × JsNum :=
      if (jsStringToNumber s0).jeq 60 then (toFixedQ 0 dp, m.jsucc) else (s0, m)
    let md : JsNum × JsNum :=
      if sm.2.jeq 60 then (.fin 0, d.jsucc) else (sm.2, d)
    let dStr := strTakeRight ("000" ++ jsnIntToString md.2) 3
    let mStr := strTakeRight ("00" ++ jsnIntToString md.1) 2
    let sStr := if (jsStringToNumber sm.1).jlt 10 then "0" ++ sm.1 else sm.1
    dStr ++ "°" ++ separator ++ mStr ++ "′" ++ separator ++ sStr ++ "″"
  else
    let d0 := jsnToFixed a dp
    let d1 := if (jsStringToNumber d0).jlt 100 then "0" ++ d0 else d0
    let d2 := if (jsStringToNumber d1).jlt 10 then "0" ++ d1 else d1
    d2 ++ "°"

/-- `Dms.toDms(deg, format, dp)`; `none` is the `null` return. -/
def toDms (deg : JsVal) (format : String) (dp : Option ℕ) : Option String :=
  if jsIsNaN deg then none
  else if isEmptyStr deg then none
  else if isBoolVal deg then none
  else if jsToNumber deg = .posInf then none
  else if deg = .null then none
  else
    let fd := toDmsDefaults format dp
    some (toDmsCore (jsToNumber deg).jabs fd.1 fd.2)

/-- `Dms.toLat`: format `wrap90(deg)`, knock off the leading degrees digit,
and suffix the hemisphere letter chosen by the sign of the original
input. The claims only exercise finite inputs, modelled by `ℚ`. -/
def toLat (deg : ℚ) (format : String) (dp : Option ℕ) : String :=
  match toDms (.num (.fin (wrap90 deg))) format dp with
  | none => "–"
  | some lat => strDrop lat 1 ++ separator ++ (if deg < 0 then "S" else "N")

/-- `Dms.toLon` (3-digit degrees, E/W suffix from the original input's
sign). -/
def toLon (deg : ℚ) (format : String) (dp : Option ℕ) : String :=
  match toDms (.num (.fin (wrap180 deg))) format dp with
  | none => "–"
  | some lon => lon ++ separator ++ (if deg < 0 then "W" else "E")

/-- `Dms.toBrng`: format `wrap360(deg)` and replace a (first) literal
`"360"` with `"0"`. -/
def toBrng (deg : ℚ) (format : String) (dp : Option ℕ) : String :=
  match toDms (.num (.fin (wrap360 deg))) format dp with
  | none => "–"
  | some brng => replaceFirst brng "360" "0"

/-- The 16-entry cardinal table of `Dms.compassPoint`. -/
def cardinals : List String :=
  ["N", "NNE", "NE", "ENE",
   "E", "ESE", "SE", "SSE",
   "S", "SSW", "SW", "WSW",
   "W", "WNW", "NW", "NNW"]

/-- The lookup index `Math.round(bearing*n/360) % n * 16/n` of
`Dms.compassPoint` (with `n = 4·2^(precision−1)`); `%` is the JavaScript
remainder (`Int.tmod`) and `16/n` is exact for `n ∈ {4, 8, 16}`. -/
def compassIdx (bearing : ℚ) (precision : ℕ) : ℤ :=
  let n : ℤ := 4 * 2 ^ (precision - 1)
  (jsRound (wrap360 bearing * (n : ℚ) / 360)).tmod n * (16 / n)

/-- JavaScript array indexing: out-of-range (or negative) is `undefined`,
modelled as `none`. -/
def jsArrayGet (l : List String) (i : ℤ) : Option String :=
  if i < 0 then none else l.get? i.toNat

/-- `Dms.compassPoint(bearing, precision)`: a `RangeError` for a precision
outside {1,2,3}, otherwise the cardinal-table entry at `compassIdx`. -/
def compassPoint (bearing : ℚ) (precision : ℕ) : Except String (Option String) :=
  if ¬ (precision = 1 ∨ precision = 2 ∨ precision = 3) then
    .error "invalid precision"
  else .ok (jsArrayGet cardinals (compassIdx bearing precision))

end Dms

namespace LatLonSpherical

/-- A stored point: the constructor does not re-validate after wrapping, so
a non-finite input is stored as NaN. -/
abbrev Pt : Type := JsNum × JsNum

/-- `Dms.wrap90` lifted to `JsNum`: the in-range test is false for NaN and
the infinities, and the wave formula turns them into NaN (`Infinity % 360`
is NaN). -/
def wrap90N : JsNum → JsNum
  | .fin q => .fin (Dms.wrap90 q)
  | _ => .nan

/-- `Dms.wrap180` lifted to `JsNum` (see `wrap90N`). -/
def wrap180N : JsNum → JsNum
  | .fin q => .fin (Dms.wrap180 q)
  | _ => .nan

/-- The `LatLonSpherical` constructor: `TypeError` when `isNaN(lat)` or
`isNaN(lon)` (with `ToNumber` coercion), else store
`wrap90(Number(lat))`/`wrap180(Number(lon))`. -/
def make (lat lon : JsVal) : Except String Pt :=
  if jsIsNaN lat then .error "invalid lat"
  else if jsIsNaN lon then .error "invalid lon"
  else .ok (wrap90N (jsToNumber lat), wrap180N (jsToNumber lon))

/-- The `lat` setter: a value failing `isNaN` is routed through
`Dms.parse`; the wrapped result is stored, and a `TypeError` is reported
exactly when that stored value is NaN. -/
def setLat (p : Pt) (lat : JsVal) : Except String Pt :=
  let newLat := if jsIsNaN lat then wrap90N (Dms.parse lat)
                else wrap90N (jsToNumber lat)
  if newLat.isNaN then .error "invalid lat" else .ok (newLat, p.2)

/-- The `lon` setter (see `setLat`). -/
def setLon (p : Pt) (lon : JsVal) : Except String Pt :=
  let newLon := if jsIsNaN lon then wrap180N (Dms.parse lon)
                else wrap180N (jsToNumber lon)
  if newLon.isNaN then .error "invalid lon" else .ok (p.1, newLon)

end LatLonSpherical

/-! ### Real-valued spherical geodesy (`intersection`, `areaOf`) -/

section RealGeodesy

open scoped Classical

/-- `Number.prototype.toRadians` (degrees to radians). -/
noncomputable def toRadR (d : ℝ) : ℝ := d * Real.pi / 180

/-- `Number.prototype.toDegrees` (radians to degrees). -/
noncomputable def toDegR (r : ℝ) : ℝ := r * 180 / Real.pi

/-- `Number.EPSILON` = 2⁻⁵². -/
noncomputable def jsEpsR : ℝ := 2 ^ (-52 : ℤ)

/-- `Math.atan2` on the reals (`atan2(0, 0) = 0`; the sign-of-zero cases
have no counterpart in `ℝ`). -/
noncomputable def atan2 (y x : ℝ) : ℝ :=
  if 0 < x then Real.arctan (y / x)
  else if x < 0 ∧ 0 ≤ y then Real.arctan (y / x) + Real.pi
  else if x < 0 ∧ y < 0 then Real.arctan (y / x) - Real.pi
  else if x = 0 ∧ 0 < y then Real.pi / 2
  else if x = 0 ∧ y < 0 then -(Real.pi / 2)
  else 0

namespace LatLonSpherical

/-- The angular distance `δ12` between `p1` and `p2` computed by
`intersection` (haversine form). -/
noncomputable def delta12 (p1 p2 : ℝ × ℝ) : ℝ :=
  let ph1 := toRadR p1.1
  let ph2 := toRadR p2.1
  let dph := ph2 - ph1
  let dlm := toRadR p2.2 - toRadR p1.2
  2 * Real.arcsin (Real.sqrt (Real.sin (dph / 2) * Real.sin (dph / 2)
    + Real.cos ph1 * Real.cos ph2 * Real.sin (dlm / 2) * Real.sin (dlm / 2)))

/-- The initial bearing `θ12` from `p1` to `p2` used by `intersection`
(`acos` argument clamped to [-1, 1]). -/
noncomputable def theta12 (p1 p2 : ℝ × ℝ) : ℝ :=
  let ph1 := toRadR p1.1
  let ph2 := toRadR p2.1
  let d12 := delta12 p1 p2
  let costha := (Real.sin ph2 - Real.sin ph1 * Real.cos d12) /
    (Real.sin d12 * Real.cos ph1)
  let tha := Real.arccos (min (max costha (-1)) 1)
  if 0 < Real.sin (toRadR p2.2 - toRadR p1.2) then tha
  else 2 * Real.pi - tha

/-- The bearing `θ21` from `p2` to `p1` used by `intersection`. -/
noncomputable def theta21 (p1 p2 : ℝ × ℝ) : ℝ :=
  let ph1 := toRadR p1.1
  let ph2 := toRadR p2.1
  let d12 := delta12 p1 p2
  let costhb := (Real.sin ph1 - Real.sin ph2 * Real.cos d12) /
    (Real.sin d12 * Real.cos ph2)
  let thb := Real.arccos (min (max costhb (-1)) 1)
  if 0 < Real.sin (toRadR p2.2 - toRadR p1.2) then 2 * Real.pi - thb
  else thb

/-- The relative angle `α1 = θ13 − θ12` (angle 2-1-3). -/
noncomputable def alpha1 (p1 : ℝ × ℝ) (brng1 : ℝ) (p2 : ℝ × ℝ) : ℝ :=
  toRadR brng1 - theta12 p1 p2

/-- The relative angle `α2 = θ21 − θ23` (angle 1-2-3). -/
noncomputable def alpha2 (p1 p2 : ℝ × ℝ) (brng2 : ℝ) : ℝ :=
  theta21 p1 p2 - toRadR brng2

/-- The unique intersection point computed on the non-degenerate path of
`intersection` (inverse-trig arguments clamped, result wrapped by the
`LatLonSpherical` constructor). -/
noncomputable def intersectionPoint (p1 : ℝ × ℝ) (brng1 : ℝ) (p2 : ℝ × ℝ)
    (brng2 : ℝ) : ℝ × ℝ :=
  let ph1 := toRadR p1.1
  let lm1 := toRadR p1.2
  let th13 := toRadR brng1
  let d12 := delta12 p1 p2
  let a1 := alpha1 p1 brng1 p2
  let a2 := alpha2 p1 p2 brng2
  let cosa3 := -Real.cos a1 * Real.cos a2 +
    Real.sin a1 * Real.sin a2 * Real.cos d12
  let d13 := atan2 (Real.sin d12 * Real.sin a1 * Real.sin a2)
    (Real.cos a2 + Real.cos a1 * cosa3)
  let ph3 := Real.arcsin (min (max (Real.sin ph1 * Real.cos d13 +
    Real.cos ph1 * Real.sin d13 * Real.cos th13) (-1)) 1)
  let dlm13 := atan2 (Real.sin th13 * Real.sin d13 * Real.cos ph1)
    (Real.cos d13 - Real.sin ph1 * Real.sin ph3)
  let lm3 := lm1 + dlm13
  (Dms.wrap90 (toDegR ph3), Dms.wrap180 (toDegR lm3))

/-- `LatLonSpherical.intersection(p1, brng1, p2, brng2)` for point
arguments and numeric bearings: coincident points (|δ12| < ε) return a
constructor-wrapped copy of `p1`; both relative-angle sines zero is the
infinite-intersections `null`; opposite-signed sines is the ambiguous
`null`; otherwise the computed point. -/
noncomputable def intersection (p1 : ℝ × ℝ) (brng1 : ℝ) (p2 : ℝ × ℝ)
    (brng2 : ℝ) : Option (ℝ × ℝ) :=
  if |delta12 p1 p2| < jsEpsR then
    some (Dms.wrap90 p1.1, Dms.wrap180 p1.2)
  else if Real.sin (alpha1 p1 brng1 p2) = 0 ∧
      Real.sin (alpha2 p1 p2 brng2) = 0 then none
  else if Real.sin (alpha1 p1 brng1 p2) * Real.sin (alpha2 p1 p2 brng2) < 0
    then none
  else some (intersectionPoint p1 brng1 p2 brng2)

/-- `equals`: both coordinate deltas within `Number.EPSILON`. -/
def equalsP (a b : ℝ × ℝ) : Prop :=
  ¬ |a.1 - b.1| > jsEpsR ∧ ¬ |a.2 - b.2| > jsEpsR

/-- `initialBearingTo`. JavaScript returns NaN for coincident points; that
value only feeds the pole-enclosure heuristic, never a claim, and is
modelled as 0. -/
noncomputable def initialBearingTo (a b : ℝ × ℝ) : ℝ :=
  if equalsP a b then 0
  else
    let ph1 := toRadR a.1
    let ph2 := toRadR b.1
    let dlm := toRadR (b.2 - a.2)
    let x := Real.cos ph1 * Real.sin ph2 -
      Real.sin ph1 * Real.cos ph2 * Real.cos dlm
    let y := Real.sin dlm * Real.cos ph2
    Dms.wrap360 (toDegR (atan2 y x))

/-- `finalBearingTo`: reverse initial bearing plus 180°, wrapped. -/
noncomputable def finalBearingTo (a b : ℝ × ℝ) : ℝ :=
  Dms.wrap360 (initialBearingTo b a + 180)

/-- The per-edge spherical excess `E` of `areaOf` (Karney's
trapezium-to-equator formula). -/
noncomputable def edgeExcess (a b : ℝ × ℝ) : ℝ :=
  let ph1 := toRadR a.1
  let ph2 := toRadR b.1
  let dlm := toRadR (b.2 - a.2)
  2 * atan2 (Real.tan (dlm / 2) * (Real.tan (ph1 / 2) + Real.tan (ph2 / 2)))
    (1 + Real.tan (ph1 / 2) * Real.tan (ph2 / 2))

/-- The `for` loop of `areaOf`: sum of `edgeExcess` over consecutive
vertices. -/
noncomputable def excessSum : List (ℝ × ℝ) → ℝ
  | a :: b :: t => edgeExcess a b + excessSum (b :: t)
  | _ => 0

/-- The loop of `isPoleEnclosedBy`, threading the running course-delta sum
and the previous bearing; returns `(ΣΔ, last final bearing)`. -/
noncomputable def poleSumGo : List (ℝ × ℝ) → ℝ → ℝ → ℝ × ℝ
  | a :: b :: t, prev, acc =>
      poleSumGo (b :: t) (finalBearingTo a b)
        (acc + (jsRem (initialBearingTo a b - prev + 540) 360 - 180)
          + (jsRem (finalBearingTo a b - initialBearingTo a b + 540) 360 - 180))
  | _, prev, acc => (acc, prev)

/-- `isPoleEnclosedBy`: total signed bearing-turn near 0° rather than
±360°.  With fewer than two vertices the JavaScript code dereferences a
missing vertex and throws, which never happens on the paths modelled
here. -/
noncomputable def isPoleEnclosedBy (p : List (ℝ × ℝ)) : Prop :=
  match p with
  | a :: b :: _ =>
      let r := poleSumGo p (initialBearingTo a b) 0
      |r.1 + (jsRem (initialBearingTo a b - r.2 + 540) 360 - 180)| < 90
  | _ => False

/-- `LatLonSpherical.areaOf(polygon, radius)`, with the mutation of the
caller's array made explicit: the result is the area paired with the
array's final state.  `none` models a thrown `TypeError`: on `[]` the
closure test dereferences `polygon[0]`, and on a single vertex the
pole-enclosure test dereferences a missing second vertex. -/
noncomputable def areaOf (polygon : List (ℝ × ℝ)) (radius : ℝ) :
    Option (ℝ × List (ℝ × ℝ)) :=
  match polygon with
  | [] => none
  | [_] => none
  | p0 :: p1 :: rest =>
      let poly := p0 :: p1 :: rest
      let closed := equalsP p0 (poly.getLast (by simp))
      let work := if closed then poly else poly ++ [p0]
      let S := excessSum work
      let S1 := if isPoleEnclosedBy work then |S| - 2 * Real.pi else S
      let A := |S1 * radius * radius|
      some (A, if closed then work else work.dropLast)

end LatLonSpherical

end RealGeodesy

section JsModFacts

variable {α : Type} [LinearOrderedField α] [FloorRing α]

theorem jsRem_of_nonneg (x n : α) (hx : ¬ x / n < 0) :
    jsRem x n = x - n * ⌊x / n⌋ := by
  unfold jsRem jsTrunc
  rw [if_neg hx]

theorem jsRem_of_neg (x n : α) (hx : x / n < 0) :
    jsRem x n = x - n * ⌈x / n⌉ := by
  unfold jsRem jsTrunc
  rw [if_pos hx]

/-- `((x % n) + n) % n` is the true (floor-division) modulo for `n > 0`. -/
theorem jsMod_eq (x n : α) (hn : 0 < n) : jsMod x n = x - n * ⌊x / n⌋ := by
  have hn0 : n ≠ 0 := ne_of_gt hn
  have hxq : n * (x / n) = x := by
    field_simp
  unfold jsMod
  by_cases hy : x / n < 0
  · -- dividend negative: the first remainder lies in (-n, 0]
    rw [jsRem_of_neg x n hy]
    set t : ℤ := ⌈x / n⌉ with ht
    have hle : x / n ≤ (t : α) := Int.le_ceil _
    have hlt : (t : α) < x / n + 1 := Int.ceil_lt_add_one _
    have hdiv : (x - n * t + n) / n = x / n - t + 1 := by
      field_simp
    by_cases hint : x / n = (t : α)
    · -- `x/n` is an integer: remainder 0, second remainder maps n back to 0
      have hx0 : x - n * t = 0 := by
        rw [← hxq, hint]
        ring
      have hfl : ⌊x / n⌋ = t := by
        rw [hint, Int.floor_intCast]
      have h11 : ¬ (n / n : α) < 0 := by
        rw [div_self hn0]
        norm_num
      rw [hx0, zero_add, jsRem_of_nonneg n n h11, div_self hn0, Int.floor_one,
        hfl]
      push_cast
      linarith [hx0]
    · -- `x/n` is not an integer, so ⌈x/n⌉ = ⌊x/n⌋ + 1
      have hlt' : x / n < (t : α) := lt_of_le_of_ne hle fun h => hint h
      have hfloor_lt : ⌊x / n⌋ < t := by
        have h1 : (⌊x / n⌋ : α) < (t : α) := lt_of_le_of_lt (Int.floor_le _) hlt'
        exact_mod_cast h1
      have hceq : t = ⌊x / n⌋ + 1 :=
        le_antisymm (Int.ceil_le_floor_add_one _) hfloor_lt
      have hr_lt0 : x - n * t < 0 := by
        have h2 : n * (x / n) < n * t := (mul_lt_mul_left hn).mpr hlt'
        rw [hxq] at h2
        linarith
      have hdiv_pos : ¬ (x - n * t + n) / n < 0 := by
        rw [hdiv]
        push_neg
        linarith
      rw [jsRem_of_nonneg _ _ hdiv_pos, hdiv]
      have hfl0 : ⌊x / n - t + 1⌋ = 0 := by
        rw [Int.floor_eq_iff]
        constructor
        · push_cast
          linarith
        · push_cast
          linarith
      rw [hfl0, hceq]
      push_cast
      ring
  · -- dividend nonnegative: the first remainder lies in [0, n)
    rw [jsRem_of_nonneg x n hy]
    set t : ℤ := ⌊x / n⌋ with ht
    have hle : (t : α) ≤ x / n := Int.floor_le _
    have hdiv : (x - n * t + n) / n = x / n - t + 1 := by
      field_simp
    have hdiv_pos : ¬ (x - n * t + n) / n < 0 := by
      rw [hdiv]
      push_neg
      push_neg at hy
      linarith
    rw [jsRem_of_nonneg _ _ hdiv_pos, hdiv]
    have hfl1 : ⌊x / n - t + 1⌋ = 1 := by
      rw [Int.floor_eq_iff]
      have hlt : x / n < (t : α) + 1 := Int.lt_floor_add_one _
      constructor
      · push_cast
        linarith
      · push_cast
        linarith
    rw [hfl1]
    push_cast
    ring

theorem jsMod_nonneg (x n : α) (hn : 0 < n) : 0 ≤ jsMod x n := by
  rw [jsMod_eq x n hn]
  have h1 : (⌊x / n⌋ : α) ≤ x / n := Int.floor_le _
  have h2 : n * (⌊x / n⌋ : α) ≤ n * (x / n) := by
    exact mul_le_mul_of_nonneg_left h1 (le_of_lt hn)
  have h3 : n * (x / n) = x := by
    field_simp
  linarith

theorem jsMod_lt (x n : α) (hn : 0 < n) : jsMod x n < n := by
  rw [jsMod_eq x n hn]
  have h1 : x / n < (⌊x / n⌋ : α) + 1 := Int.lt_floor_add_one _
  have h2 : n * (x / n) < n * ((⌊x / n⌋ : α) + 1) := by
    exact (mul_lt_mul_left hn).mpr h1
  have h3 : n * (x / n) = x := by
    field_simp
  nlinarith

end JsModFacts

section WrapFacts

variable {α : Type} [LinearOrderedField α] [FloorRing α]

theorem wrap90_mem (x : α) : -90 ≤ Dms.wrap90 x ∧ Dms.wrap90 x ≤ 90 := by
  unfold Dms.wrap90
  split
  · next h => exact h
  · have h0 := jsMod_nonneg (x - 360 / 4) (360 : α) (by norm_num)
    have h1 := jsMod_lt (x - 360 / 4) (360 : α) (by norm_num)
    have habs : |jsMod (x - 360 / 4) 360 - 360 / 2| ≤ 180 := by
      rw [abs_le]
      constructor <;> linarith
    have habs0 : 0 ≤ |jsMod (x - 360 / 4) 360 - 360 / 2| := abs_nonneg _
    constructor <;> nlinarith

theorem wrap180_mem (x : α) : -180 ≤ Dms.wrap180 x ∧ Dms.wrap180 x ≤ 180 := by
  unfold Dms.wrap180
  split
  · next h => exact h
  · have h0 := jsMod_nonneg (2 * 180 * x / 360 - 360 / 2) (360 : α) (by norm_num)
    have h1 := jsMod_lt (2 * 180 * x / 360 - 360 / 2) (360 : α) (by norm_num)
    constructor <;> linarith

theorem wrap360_mem (x : α) : 0 ≤ Dms.wrap360 x ∧ Dms.wrap360 x < 360 := by
  unfold Dms.wrap360
  split
  · next h => exact h
  · exact ⟨jsMod_nonneg _ _ (by norm_num), jsMod_lt _ _ (by norm_num)⟩

theorem wrap90_eq_self (x : α) (h1 : -90 ≤ x) (h2 : x ≤ 90) :
    Dms.wrap90 x = x := by
  unfold Dms.wrap90
  rw [if_pos ⟨h1, h2⟩]

theorem wrap180_eq_self (x : α) (h1 : -180 ≤ x) (h2 : x ≤ 180) :
    Dms.wrap180 x = x := by
  unfold Dms.wrap180
  rw [if_pos ⟨h1, h2⟩]

theorem wrap360_eq_self (x : α) (h1 : 0 ≤ x) (h2 : x < 360) :
    Dms.wrap360 x = x := by
  unfold Dms.wrap360
  rw [if_pos ⟨h1, h2⟩]

/-- Rewrite ceilings to floors so that `norm_num` can evaluate `jsTrunc`
on concrete rationals. -/
theorem ceil_as_neg_floor_neg {α : Type} [LinearOrderedRing α] [FloorRing α]
    (a : α) : ⌈a⌉ = -⌊-a⌋ := by
  rw [← Int.ceil_neg, neg_neg]

end WrapFacts

section ToDmsStructure

/-- For a finite numeric argument all five guards of `Dms.toDms` pass. -/
theorem toDms_num_fin (q : ℚ) (format : String) (dp : Option ℕ) :
    Dms.toDms (.num (.fin q)) format dp =
      some (Dms.toDmsCore (.fin |q|)
        (Dms.toDmsDefaults format dp).1 (Dms.toDmsDefaults format dp).2) := by
  simp [Dms.toDms, jsIsNaN, jsToNumber, Dms.isEmptyStr, Dms.isBoolVal,
    JsNum.isNaN, JsNum.jabs]

end ToDmsStructure

/-! ### Claim theorems -/

/-- Claim C4: the seven boundary values of the wrap functions are exactly
as stated: wrapLat(91)=89, wrapLat(-91)=-89, wrapLat(270)=-90,
wrapLon(181)=-179, wrapLon(-181)=179, wrapBearing(-1)=359,
wrapBearing(361)=1. -/
theorem claim_C4_wrap_boundaries :
    Dms.wrap90 (91 : ℚ) = 89 ∧ Dms.wrap90 (-91 : ℚ) = -89 ∧
    Dms.wrap90 (270 : ℚ) = -90 ∧
    Dms.wrap180 (181 : ℚ) = -179 ∧ Dms.wrap180 (-181 : ℚ) = 179 ∧
    Dms.wrap360 (-1 : ℚ) = 359 ∧ Dms.wrap360 (361 : ℚ) = 1 := by
  refine ⟨?_, ?_, ?_, ?_, ?_, ?_, ?_⟩ <;>
    norm_num [Dms.wrap90, Dms.wrap180, Dms.wrap360, jsMod, jsRem, jsTrunc,
      ceil_as_neg_floor_neg]

/-- Claim C5: each wrap function is idempotent on every finite input —
equivalently, each one's output lies in its own identity range. -/
theorem claim_C5_wrap_idempotent (x : ℚ) :
    Dms.wrap90 (Dms.wrap90 x) = Dms.wrap90 x ∧
    Dms.wrap180 (Dms.wrap180 x) = Dms.wrap180 x ∧
    Dms.wrap360 (Dms.wrap360 x) = Dms.wrap360 x := by
  obtain ⟨h1, h2⟩ := wrap90_mem x
  obtain ⟨h3, h4⟩ := wrap180_mem x
  obtain ⟨h5, h6⟩ := wrap360_mem x
  exact ⟨wrap90_eq_self _ h1 h2, wrap180_eq_self _ h3 h4,
    wrap360_eq_self _ h5 h6⟩

/-- Claim C1, counterexample: constructing a point with longitude −180
stores −180 itself (the in-range test of `wrap180` includes −180), so a
stored longitude is *not* always in the half-open interval (−180, 180]. -/
theorem claim_C1_counterexample :
    LatLonSpherical.make (.num (.fin 0)) (.num (.fin (-180))) =
      .ok (.fin 0, .fin (-180)) ∧ ¬ (-180 < (-180 : ℚ)) := by
  constructor
  · simp [LatLonSpherical.make, jsIsNaN, jsToNumber, JsNum.isNaN,
      LatLonSpherical.wrap90N, LatLonSpherical.wrap180N,
      wrap90_eq_self (0 : ℚ) (by norm_num) (by norm_num),
      wrap180_eq_self (-180 : ℚ) (by norm_num) (by norm_num)]
  · norm_num

/-- Claim C1, amended: for finite numeric input, construction and the
lat/lon setters store exactly `wrap90`/`wrap180` of the value, so the
stored latitude lies in [−90, 90] and the stored longitude lies in the
*closed* interval [−180, 180] (−180 is reachable). -/
theorem claim_C1_amended (lat lon : ℚ) (p : LatLonSpherical.Pt) :
    LatLonSpherical.make (.num (.fin lat)) (.num (.fin lon)) =
      .ok (.fin (Dms.wrap90 lat), .fin (Dms.wrap180 lon)) ∧
    (-90 ≤ Dms.wrap90 lat ∧ Dms.wrap90 lat ≤ 90) ∧
    (-180 ≤ Dms.wrap180 lon ∧ Dms.wrap180 lon ≤ 180) ∧
    LatLonSpherical.setLat p (.num (.fin lat)) =
      .ok (.fin (Dms.wrap90 lat), p.2) ∧
    LatLonSpherical.setLon p (.num (.fin lon)) =
      .ok (p.1, .fin (Dms.wrap180 lon)) := by
  refine ⟨?_, wrap90_mem lat, wrap180_mem lon, ?_, ?_⟩
  · simp [LatLonSpherical.make, jsIsNaN, jsToNumber, JsNum.isNaN,
      LatLonSpherical.wrap90N, LatLonSpherical.wrap180N]
  · simp [LatLonSpherical.setLat, jsIsNaN, jsToNumber, JsNum.isNaN,
      LatLonSpherical.wrap90N]
  · simp [LatLonSpherical.setLon, jsIsNaN, jsToNumber, JsNum.isNaN,
      LatLonSpherical.wrap180N]

/-- Claim C3, counterexample: `-Infinity` is *not* caught by the
`deg == Infinity` guard, so the formatter does not return the null
sentinel for it: it formats `Math.abs(-Infinity)` and yields the string
`"Infinity°"`. -/
theorem claim_C3_counterexample :
    Dms.toDms (.num .negInf) "d" none = some "Infinity°" := by
  rfl

/-- Claim C3, amended: the formatter returns the null sentinel (never
throwing) for NaN, empty or whitespace-only strings, booleans, and
`+Infinity` — but not for `-Infinity`, which yields a plain string — and
an unknown format style with unspecified decimal places falls back to the
`'d'` style with 4 decimal places. -/
theorem claim_C3_amended :
    (∀ f dp, Dms.toDms (.num .nan) f dp = none) ∧
    (∀ s f dp, jsTrim s = "" → Dms.toDms (.str s) f dp = none) ∧
    (∀ b f dp, Dms.toDms (.bool b) f dp = none) ∧
    (∀ f dp, Dms.toDms (.num .posInf) f dp = none) ∧
    (∀ v f, f ≠ "d" → f ≠ "deg" → f ≠ "dm" → f ≠ "deg+min" →
      f ≠ "dms" → f ≠ "deg+min+sec" →
      Dms.toDms v f none = Dms.toDms v "d" none) := by
  refine ⟨?_, ?_, ?_, ?_, ?_⟩
  · intro f dp
    simp [Dms.toDms, jsIsNaN, jsToNumber, JsNum.isNaN]
  · intro s f dp h
    have h0 : jsStringToNumber s = .fin 0 := by
      simp [jsStringToNumber, h]
    simp [Dms.toDms, jsIsNaN, jsToNumber, h0, JsNum.isNaN, Dms.isEmptyStr, h]
  · intro b f dp
    cases b <;>
      simp [Dms.toDms, jsIsNaN, jsToNumber, JsNum.isNaN, Dms.isEmptyStr,
        Dms.isBoolVal]
  · intro f dp
    simp [Dms.toDms, jsIsNaN, jsToNumber, JsNum.isNaN, Dms.isEmptyStr,
      Dms.isBoolVal]
  · intro v f h1 h2 h3 h4 h5 h6
    have hd : Dms.toDmsDefaults f none = Dms.toDmsDefaults "d" none := by
      simp [Dms.toDmsDefaults, h1, h2, h3, h4, h5, h6]
    simp only [Dms.toDms, hd]

/-- Claim C3, witness: concrete instances of every amended case. -/
theorem claim_C3_witness :
    Dms.toDms (.num .nan) "dms" none = none ∧
    (jsTrim " " = "" ∧ Dms.toDms (.str " ") "d" none = none) ∧
    Dms.toDms (.bool true) "d" none = none ∧
    Dms.toDms (.num .posInf) "dm" none = none ∧
    Dms.toDms (.num (.fin 1)) "bogus" none =
      Dms.toDms (.num (.fin 1)) "d" none := by
  refine ⟨claim_C3_amended.1 "dms" none,
    ⟨by decide, claim_C3_amended.2.1 " " "d" none (by decide)⟩,
    claim_C3_amended.2.2.1 true "d" none,
    claim_C3_amended.2.2.2.1 "dm" none,
    claim_C3_amended.2.2.2.2 (.num (.fin 1)) "bogus" (by decide) (by decide)
      (by decide) (by decide) (by decide) (by decide)⟩

section EvalHelpers

theorem eval_toFixedQ_20_4 : toFixedQ 20 4 = "20.0000" := by
  have h : (⌊|(20 : ℚ)| * 10 ^ 4 + 1 / 2⌋).toNat = 200000 := by
    norm_num
    decide
  norm_num [toFixedQ, h]
  rfl

theorem eval_jsStringToNumber_20 : jsStringToNumber "20.0000" = .fin 20 := by
  have h0 : jsStringToNumber "20.0000" =
      .fin (1 * decValue ['2', '0'] ['0', '0', '0', '0']) := rfl
  have d1 : digitsToNat ['2', '0'] = 20 := by decide
  have d2 : digitsToNat ['0', '0', '0', '0'] = 0 := by decide
  rw [h0, decValue, d1, d2]
  norm_num

theorem eval_jsStringToNumber_020 : jsStringToNumber "020.0000" = .fin 20 := by
  have h0 : jsStringToNumber "020.0000" =
      .fin (1 * decValue ['0', '2', '0'] ['0', '0', '0', '0']) := rfl
  have d1 : digitsToNat ['0', '2', '0'] = 20 := by decide
  have d2 : digitsToNat ['0', '0', '0', '0'] = 0 := by decide
  rw [h0, decValue, d1, d2]
  norm_num

theorem eval_toDmsCore_fin20 :
    Dms.toDmsCore (.fin (20 : ℚ)) "d" 4 = "020.0000°" := by
  have hlt1 : JsNum.jlt (.fin (20 : ℚ)) 100 = true := by
    norm_num [JsNum.jlt]
  have hlt2 : JsNum.jlt (.fin (20 : ℚ)) 10 = false := by
    norm_num [JsNum.jlt]
  simp [Dms.toDmsCore, jsnToFixed, eval_toFixedQ_20_4,
    eval_jsStringToNumber_20, eval_jsStringToNumber_020, hlt1, hlt2,
    Dms.separator]

theorem eval_toDms_fin_neg20 :
    Dms.toDms (.num (.fin (-20 : ℚ))) "d" none = some "020.0000°" := by
  rw [toDms_num_fin]
  norm_num [Dms.toDmsDefaults, eval_toDmsCore_fin20]

theorem eval_toDms_fin_20 :
    Dms.toDms (.num (.fin (20 : ℚ))) "d" none = some "020.0000°" := by
  rw [toDms_num_fin]
  norm_num [Dms.toDmsDefaults, eval_toDmsCore_fin20]

theorem eval_wrap90_200 : Dms.wrap90 (200 : ℚ) = -20 := by
  norm_num [Dms.wrap90, jsMod, jsRem, jsTrunc, ceil_as_neg_floor_neg]

end EvalHelpers

/-- Claim C6, counterexample: for input 200 the wrapped latitude is −20
(southern), but `toLat` chooses the hemisphere letter from the *original*
input (`deg < 0`), so the suffix is `'N'`, not the claimed `'S'`. -/
theorem claim_C6_counterexample :
    Dms.wrap90 (200 : ℚ) = -20 ∧ (-20 : ℚ) < 0 ∧
    Dms.toLat 200 "d" none = "20.0000°" ++ Dms.separator ++ "N" := by
  refine ⟨eval_wrap90_200, by norm_num, ?_⟩
  rw [Dms.toLat, eval_wrap90_200, eval_toDms_fin_neg20]
  norm_num [strDrop]

/-- Claim C6, amended: `toLat` formats the absolute wrapped latitude
`|wrapLat(value)|` with the leading degrees digit stripped, but the
hemisphere suffix reflects the sign of the *original* input value — `'S'`
exactly when the input is negative — not the sign of the wrapped
latitude. -/
theorem claim_C6_amended :
    (∀ (x : ℚ) f dp,
      Dms.toDms (.num (.fin x)) f dp = Dms.toDms (.num (.fin |x|)) f dp) ∧
    (∀ (q : ℚ) f dp s,
      Dms.toDms (.num (.fin (Dms.wrap90 q))) f dp = some s →
      Dms.toLat q f dp =
        strDrop s 1 ++ Dms.separator ++ (if q < 0 then "S" else "N")) := by
  constructor
  · intro x f dp
    rw [toDms_num_fin, toDms_num_fin, abs_abs]
  · intro q f dp s h
    rw [Dms.toLat, h]

/-- Claim C6, witness: concrete instances of both amended parts. -/
theorem claim_C6_witness :
    Dms.toDms (.num (.fin (-20 : ℚ))) "d" none =
      Dms.toDms (.num (.fin |(-20 : ℚ)|)) "d" none ∧
    Dms.toLat 20 "d" none =
      strDrop "020.0000°" 1 ++ Dms.separator ++ "N" := by
  constructor
  · exact claim_C6_amended.1 (-20) "d" none
  · have hw : Dms.wrap90 (20 : ℚ) = 20 :=
      wrap90_eq_self _ (by norm_num) (by norm_num)
    have h : Dms.toDms (.num (.fin (Dms.wrap90 (20 : ℚ)))) "d" none =
        some "020.0000°" := by
      rw [hw]
      exact eval_toDms_fin_20
    have h2 := claim_C6_amended.2 20 "d" none "020.0000°" h
    simpa using h2

section ReplaceFacts

theorem replaceFirstL_of_not_contains (pat rep l : List Char)
    (h : containsPat pat l = false) : replaceFirstL pat rep l = l := by
  induction l with
  | nil => rfl
  | cons c t ih =>
      rw [containsPat, Bool.or_eq_false_iff] at h
      rw [replaceFirstL, if_neg (by simp [h.1]), ih h.2]

theorem replaceFirst_of_not_contains (s pat rep : String)
    (h : containsSub s pat = false) : replaceFirst s pat rep = s := by
  obtain ⟨d⟩ := s
  rw [replaceFirst, replaceFirstL_of_not_contains pat.data rep.data _ h]

end ReplaceFacts

section EvalHelpers2

theorem eval_toFixedQ_036 : toFixedQ (9 / 25) 4 = "0.3600" := by
  have h : ⌊|(9 / 25 : ℚ)| * 10 ^ 4 + 1 / 2⌋ = 3600 := by
    rw [show |(9 / 25 : ℚ)| = 9 / 25 from by norm_num]
    norm_num
  simp only [toFixedQ, h]
  norm_num
  rfl

theorem eval_jsStringToNumber_036 : jsStringToNumber "0.3600" = .fin (9 / 25) := by
  have h0 : jsStringToNumber "0.3600" =
      .fin (1 * decValue ['0'] ['3', '6', '0', '0']) := rfl
  have d1 : digitsToNat ['0'] = 0 := by decide
  have d2 : digitsToNat ['3', '6', '0', '0'] = 3600 := by decide
  rw [h0, decValue, d1, d2]
  norm_num

theorem eval_jsStringToNumber_0036 : jsStringToNumber "00.3600" = .fin (9 / 25) := by
  have h0 : jsStringToNumber "00.3600" =
      .fin (1 * decValue ['0', '0'] ['3', '6', '0', '0']) := rfl
  have d1 : digitsToNat ['0', '0'] = 0 := by decide
  have d2 : digitsToNat ['3', '6', '0', '0'] = 3600 := by decide
  rw [h0, decValue, d1, d2]
  norm_num

theorem eval_toDmsCore_fin036 :
    Dms.toDmsCore (.fin (9 / 25 : ℚ)) "d" 4 = "000.3600°" := by
  have hlt1 : JsNum.jlt (.fin (9 / 25 : ℚ)) 100 = true := by
    norm_num [JsNum.jlt]
  have hlt2 : JsNum.jlt (.fin (9 / 25 : ℚ)) 10 = true := by
    norm_num [JsNum.jlt]
  simp [Dms.toDmsCore, jsnToFixed, eval_toFixedQ_036,
    eval_jsStringToNumber_036, eval_jsStringToNumber_0036, hlt1, hlt2,
    Dms.separator]

theorem eval_toDms_fin_036 :
    Dms.toDms (.num (.fin (9 / 25 : ℚ))) "d" none = some "000.3600°" := by
  rw [toDms_num_fin]
  have habs : |(9 / 25 : ℚ)| = 9 / 25 := by norm_num
  rw [habs]
  norm_num [Dms.toDmsDefaults, eval_toDmsCore_fin036]

theorem eval_toFixedQ_45 : toFixedQ 45 4 = "45.0000" := by
  have h : (⌊|(45 : ℚ)| * 10 ^ 4 + 1 / 2⌋).toNat = 450000 := by
    norm_num
    decide
  norm_num [toFixedQ, h]
  rfl

theorem eval_jsStringToNumber_45 : jsStringToNumber "45.0000" = .fin 45 := by
  have h0 : jsStringToNumber "45.0000" =
      .fin (1 * decValue ['4', '5'] ['0', '0', '0', '0']) := rfl
  have d1 : digitsToNat ['4', '5'] = 45 := by decide
  have d2 : digitsToNat ['0', '0', '0', '0'] = 0 := by decide
  rw [h0, decValue, d1, d2]
  norm_num

theorem eval_jsStringToNumber_045 : jsStringToNumber "045.0000" = .fin 45 := by
  have h0 : jsStringToNumber "045.0000" =
      .fin (1 * decValue ['0', '4', '5'] ['0', '0', '0', '0']) := rfl
  have d1 : digitsToNat ['0', '4', '5'] = 45 := by decide
  have d2 : digitsToNat ['0', '0', '0', '0'] = 0 := by decide
  rw [h0, decValue, d1, d2]
  norm_num

theorem eval_toDmsCore_fin45 :
    Dms.toDmsCore (.fin (45 : ℚ)) "d" 4 = "045.0000°" := by
  have hlt1 : JsNum.jlt (.fin (45 : ℚ)) 100 = true := by
    norm_num [JsNum.jlt]
  have hlt2 : JsNum.jlt (.fin (45 : ℚ)) 10 = false := by
    norm_num [JsNum.jlt]
  simp [Dms.toDmsCore, jsnToFixed, eval_toFixedQ_45,
    eval_jsStringToNumber_45, eval_jsStringToNumber_045, hlt1, hlt2,
    Dms.separator]

theorem eval_toDms_fin_45 :
    Dms.toDms (.num (.fin (45 : ℚ))) "d" none = some "045.0000°" := by
  rw [toDms_num_fin]
  have habs : |(45 : ℚ)| = 45 := by norm_num
  rw [habs]
  norm_num [Dms.toDmsDefaults, eval_toDmsCore_fin45]

end EvalHelpers2

/-- Claim C7, counterexample: for bearing 0.36° the formatted wrapped
bearing is `"000.3600°"` — nowhere near a rounding carry to 360° — yet
`toBrng` rewrites its first embedded digit run `360`, returning the
mangled `"000.00°"`. -/
theorem claim_C7_counterexample :
    Dms.toDms (.num (.fin (Dms.wrap360 (9 / 25)))) "d" none =
      some "000.3600°" ∧
    Dms.toBrng (9 / 25) "d" none = "000.00°" ∧
    ("000.00°" : String) ≠ "000.3600°" := by
  have hw : Dms.wrap360 (9 / 25 : ℚ) = 9 / 25 :=
    wrap360_eq_self _ (by norm_num) (by norm_num)
  refine ⟨by rw [hw]; exact eval_toDms_fin_036, ?_, by decide⟩
  rw [Dms.toBrng, hw, eval_toDms_fin_036]
  decide

/-- Claim C7, amended: `toBrng` returns the formatted wrapped bearing with
the *first occurrence of the substring "360" anywhere in it* replaced by
`"0"`; in particular the output is unchanged exactly when the formatted
string contains no "360" substring (not merely when no rounding carried
the bearing up to a literal 360°). -/
theorem claim_C7_amended :
    (∀ (q : ℚ) f dp s,
      Dms.toDms (.num (.fin (Dms.wrap360 q))) f dp = some s →
      Dms.toBrng q f dp = replaceFirst s "360" "0") ∧
    (∀ (q : ℚ) f dp s,
      Dms.toDms (.num (.fin (Dms.wrap360 q))) f dp = some s →
      containsSub s "360" = false →
      Dms.toBrng q f dp = s) := by
  constructor
  · intro q f dp s h
    rw [Dms.toBrng, h]
  · intro q f dp s h hno
    rw [Dms.toBrng, h]
    show replaceFirst s "360" "0" = s
    exact replaceFirst_of_not_contains s "360" "0" hno

/-- Claim C7, witness: at bearing 45° the formatted string `"045.0000°"`
contains no "360" and `toBrng` leaves it unchanged. -/
theorem claim_C7_witness :
    Dms.toDms (.num (.fin (Dms.wrap360 (45 : ℚ)))) "d" none =
      some "045.0000°" ∧
    containsSub "045.0000°" "360" = false ∧
    Dms.toBrng 45 "d" none = "045.0000°" := by
  have hw : Dms.wrap360 (45 : ℚ) = 45 :=
    wrap360_eq_self _ (by norm_num) (by norm_num)
  have h : Dms.toDms (.num (.fin (Dms.wrap360 (45 : ℚ)))) "d" none =
      some "045.0000°" := by
    rw [hw]
    exact eval_toDms_fin_45
  exact ⟨h, by decide, claim_C7_amended.2 45 "d" none "045.0000°" h (by decide)⟩

section EvalHelpers3

theorem eval_parse_dmsW : Dms.parse (.str "3 37 12W") = .fin (-181 / 50) := by
  simp [Dms.parse, Dms.parseDmsString, jsTrim, splitNonNum, splitNonNumGo,
    isNumCh, jsStringToNumber, parseDecFull, splitSign, decValue, digitsToNat,
    parseFloatJs, JsNum.jadd, JsNum.jdivPos, JsNum.jneg, JsNum.isNaN,
    JsNum.isFinite]
  norm_num

theorem eval_number_dmsW : jsStringToNumber "3 37 12W" = .nan := by
  decide

end EvalHelpers3

/-- Claim C8, counterexample: the constructor does *not* route its
arguments through `DmsCodec.parse` — `isNaN('3 37 12W')` is true, so
`new LatLon('3 37 12W', 0)` reports a `TypeError`, even though
`Dms.parse` maps the same text to the perfectly usable −3.62°. -/
theorem claim_C8_counterexample :
    LatLonSpherical.make (.str "3 37 12W") (.num (.fin 0)) =
      .error "invalid lat" ∧
    Dms.parse (.str "3 37 12W") = .fin (-181 / 50) := by
  refine ⟨?_, eval_parse_dmsW⟩
  simp [LatLonSpherical.make, jsIsNaN, jsToNumber, eval_number_dmsW,
    JsNum.isNaN]

/-- Claim C8, amended: the constructor accepts exactly the inputs whose
plain `Number` coercion is not NaN (storing the wrapped coercion), and it
is the lat/lon *setters* that additionally accept degree-minute-second
text through `DmsCodec.parse` — e.g. setting latitude from `'3 37 12W'`
stores `wrapLat(−3.62)`. -/
theorem claim_C8_amended :
    (∀ v w : JsVal,
      (∃ p, LatLonSpherical.make v w = .ok p) ↔
        (jsIsNaN v = false ∧ jsIsNaN w = false)) ∧
    (∀ v w : JsVal, jsIsNaN v = false → jsIsNaN w = false →
      LatLonSpherical.make v w =
        .ok (LatLonSpherical.wrap90N (jsToNumber v),
          LatLonSpherical.wrap180N (jsToNumber w))) ∧
    (∀ p : LatLonSpherical.Pt,
      LatLonSpherical.setLat p (.str "3 37 12W") =
        .ok (.fin (-181 / 50), p.2)) := by
  refine ⟨?_, ?_, ?_⟩
  · intro v w
    constructor
    · rintro ⟨p, hp⟩
      by_cases hv : jsIsNaN v = true <;> by_cases hw : jsIsNaN w = true <;>
        simp_all [LatLonSpherical.make]
    · rintro ⟨hv, hw⟩
      exact ⟨(LatLonSpherical.wrap90N (jsToNumber v),
        LatLonSpherical.wrap180N (jsToNumber w)),
        by simp [LatLonSpherical.make, hv, hw]⟩
  · intro v w hv hw
    simp [LatLonSpherical.make, hv, hw]
  · intro p
    have hn : jsIsNaN (.str "3 37 12W") = true := by
      simp [jsIsNaN, jsToNumber, eval_number_dmsW, JsNum.isNaN]
    have hwrap : Dms.wrap90 (-181 / 50 : ℚ) = -181 / 50 :=
      wrap90_eq_self _ (by norm_num) (by norm_num)
    simp [LatLonSpherical.setLat, hn, eval_parse_dmsW,
      LatLonSpherical.wrap90N, hwrap, JsNum.isNaN]

/-- Claim C8, witness: a numeric construction succeeds, and the latitude
setter accepts the DMS text `'3 37 12W'`. -/
theorem claim_C8_witness :
    (jsIsNaN (.num (.fin 5)) = false ∧ jsIsNaN (.num (.fin 200)) = false) ∧
    LatLonSpherical.make (.num (.fin 5)) (.num (.fin 200)) =
      .ok (LatLonSpherical.wrap90N (jsToNumber (.num (.fin 5))),
        LatLonSpherical.wrap180N (jsToNumber (.num (.fin 200)))) ∧
    LatLonSpherical.setLat (.fin 0, .fin 0) (.str "3 37 12W") =
      .ok (.fin (-181 / 50), .fin 0) := by
  refine ⟨⟨by decide, by decide⟩, ?_, ?_⟩
  · exact claim_C8_amended.2.1 (.num (.fin 5)) (.num (.fin 200))
      (by decide) (by decide)
  · simpa using claim_C8_amended.2.2 (.fin 0, .fin 0)

section CompassFacts

theorem compass_idx_bounds (w : ℚ) (n : ℤ) (h0 : 0 ≤ w) (_h1 : w < 360)
    (hn : n = 4 ∨ n = 8 ∨ n = 16) :
    0 ≤ (jsRound (w * (n : ℚ) / 360)).tmod n * (16 / n) ∧
    (jsRound (w * (n : ℚ) / 360)).tmod n * (16 / n) ≤ 15 := by
  have hnpos : (0 : ℤ) < n := by
    rcases hn with rfl | rfl | rfl <;> norm_num
  have hnq : (0 : ℚ) < (n : ℚ) := by exact_mod_cast hnpos
  have hr0 : 0 ≤ jsRound (w * (n : ℚ) / 360) := by
    rw [jsRound]
    refine Int.le_floor.mpr ?_
    push_cast
    have hd : (0 : ℚ) ≤ w * (n : ℚ) / 360 :=
      div_nonneg (mul_nonneg h0 hnq.le) (by norm_num)
    linarith
  have htm : (jsRound (w * (n : ℚ) / 360)).tmod n =
      jsRound (w * (n : ℚ) / 360) % n :=
    Int.tmod_eq_emod hr0 hnpos.le
  have he0 : 0 ≤ jsRound (w * (n : ℚ) / 360) % n :=
    Int.emod_nonneg _ (ne_of_gt hnpos)
  have he1 : jsRound (w * (n : ℚ) / 360) % n < n :=
    Int.emod_lt_of_pos _ hnpos
  rw [htm]
  rcases hn with rfl | rfl | rfl <;> constructor <;> omega

end CompassFacts

/-- Claim C10: for precision in {1,2,3} the compass lookup index is an
integer in {0,…,15}, the cardinal-table access is in bounds, and
`compassPoint` always returns one of the 16 compass-point names. -/
theorem claim_C10_compass_total (b : ℚ) (p : ℕ)
    (hp : p = 1 ∨ p = 2 ∨ p = 3) :
    0 ≤ Dms.compassIdx b p ∧ Dms.compassIdx b p ≤ 15 ∧
    ∃ s, Dms.compassPoint b p = .ok (some s) ∧ s ∈ Dms.cardinals := by
  obtain ⟨hw0, hw1⟩ := wrap360_mem (α := ℚ) b
  have hn : (4 * 2 ^ (p - 1) : ℤ) = 4 ∨ (4 * 2 ^ (p - 1) : ℤ) = 8 ∨
      (4 * 2 ^ (p - 1) : ℤ) = 16 := by
    rcases hp with rfl | rfl | rfl <;> norm_num
  have hb := compass_idx_bounds (Dms.wrap360 b) (4 * 2 ^ (p - 1)) hw0 hw1 hn
  have hidx0 : 0 ≤ Dms.compassIdx b p := by
    simpa [Dms.compassIdx] using hb.1
  have hidx15 : Dms.compassIdx b p ≤ 15 := by
    simpa [Dms.compassIdx] using hb.2
  have hlen : Dms.cardinals.length = 16 := rfl
  have hlt : (Dms.compassIdx b p).toNat < Dms.cardinals.length := by
    omega
  refine ⟨hidx0, hidx15,
    Dms.cardinals.get ⟨(Dms.compassIdx b p).toNat, hlt⟩, ?_,
    List.get_mem _ _ _⟩
  rw [Dms.compassPoint, if_neg (not_not_intro hp), Dms.jsArrayGet,
    if_neg (not_lt.mpr hidx0), List.get?_eq_get hlt]

/-- Claim C10, witness: precision 3 at bearing 24° is in bounds and
produces a cardinal name. -/
theorem claim_C10_witness :
    ((3 : ℕ) = 1 ∨ (3 : ℕ) = 2 ∨ (3 : ℕ) = 3) ∧
    (0 ≤ Dms.compassIdx 24 3 ∧ Dms.compassIdx 24 3 ≤ 15 ∧
      ∃ s, Dms.compassPoint 24 3 = .ok (some s) ∧ s ∈ Dms.cardinals) :=
  ⟨by norm_num, claim_C10_compass_total 24 3 (by norm_num)⟩

/-- Claim C2: `intersection` on points and numeric bearings: a coincident
pair returns a copy of `p1`; both relative-angle sines zero returns the
no-intersection `null`; opposite-signed sines returns `null`; otherwise it
returns the unique computed point.  The function is total on real inputs —
it never throws and every returned coordinate is a real number. -/
theorem claim_C2_intersection (p1 : ℝ × ℝ) (b1 : ℝ) (p2 : ℝ × ℝ) (b2 : ℝ) :
    (p1 = p2 → -90 ≤ p1.1 → p1.1 ≤ 90 → -180 ≤ p1.2 → p1.2 ≤ 180 →
      LatLonSpherical.intersection p1 b1 p2 b2 = some p1) ∧
    (¬ |LatLonSpherical.delta12 p1 p2| < jsEpsR →
      Real.sin (LatLonSpherical.alpha1 p1 b1 p2) = 0 →
      Real.sin (LatLonSpherical.alpha2 p1 p2 b2) = 0 →
      LatLonSpherical.intersection p1 b1 p2 b2 = none) ∧
    (¬ |LatLonSpherical.delta12 p1 p2| < jsEpsR →
      Real.sin (LatLonSpherical.alpha1 p1 b1 p2) *
        Real.sin (LatLonSpherical.alpha2 p1 p2 b2) < 0 →
      LatLonSpherical.intersection p1 b1 p2 b2 = none) ∧
    (¬ |LatLonSpherical.delta12 p1 p2| < jsEpsR →
      ¬ (Real.sin (LatLonSpherical.alpha1 p1 b1 p2) = 0 ∧
        Real.sin (LatLonSpherical.alpha2 p1 p2 b2) = 0) →
      ¬ Real.sin (LatLonSpherical.alpha1 p1 b1 p2) *
          Real.sin (LatLonSpherical.alpha2 p1 p2 b2) < 0 →
      LatLonSpherical.intersection p1 b1 p2 b2 =
        some (LatLonSpherical.intersectionPoint p1 b1 p2 b2)) := by
  refine ⟨?_, ?_, ?_, ?_⟩
  · intro heq h1 h2 h3 h4
    subst heq
    have hd : LatLonSpherical.delta12 p1 p1 = 0 := by
      simp [LatLonSpherical.delta12]
    have heps : (0 : ℝ) < jsEpsR := by
      rw [jsEpsR]
      positivity
    rw [LatLonSpherical.intersection, if_pos (by rw [hd]; simpa using heps),
      wrap90_eq_self _ h1 h2, wrap180_eq_self _ h3 h4]
  · intro hdist hs1 hs2
    rw [LatLonSpherical.intersection, if_neg hdist, if_pos ⟨hs1, hs2⟩]
  · intro hdist hneg
    rw [LatLonSpherical.intersection, if_neg hdist]
    rw [if_neg (by rintro ⟨hz1, hz2⟩; rw [hz1, hz2] at hneg; simp at hneg),
      if_pos hneg]
  · intro hdist hzz hneg
    rw [LatLonSpherical.intersection, if_neg hdist, if_neg hzz, if_neg hneg]

/-- Claim C2, witness: two coincident origin points (an in-range point)
give back the point itself. -/
theorem claim_C2_witness :
    LatLonSpherical.intersection ((0, 0) : ℝ × ℝ) 0 ((0, 0) : ℝ × ℝ) 0 =
      some ((0, 0) : ℝ × ℝ) :=
  (claim_C2_intersection (0, 0) 0 (0, 0) 0).1 rfl (by norm_num) (by norm_num)
    (by norm_num) (by norm_num)

/-- Claim C9: whenever `areaOf` returns, the caller's polygon array is
back in its original state — the closing vertex pushed onto an unclosed
polygon is popped again, and nothing is ever appended to an already-closed
polygon. -/
theorem claim_C9_areaOf_restores (polygon : List (ℝ × ℝ)) (R : ℝ)
    (out : ℝ × List (ℝ × ℝ))
    (h : LatLonSpherical.areaOf polygon R = some out) :
    out.2 = polygon := by
  rcases polygon with _ | ⟨p0, _ | ⟨p1, rest⟩⟩
  · simp [LatLonSpherical.areaOf] at h
  · simp [LatLonSpherical.areaOf] at h
  · simp only [LatLonSpherical.areaOf, Option.some.injEq] at h
    subst h
    by_cases hc :
        LatLonSpherical.equalsP p0 ((p0 :: p1 :: rest).getLast (by simp))
    · simp only [if_pos hc]
    · simp only [if_neg hc]
      show ((p0 :: p1 :: rest) ++ [p0]).dropLast = p0 :: p1 :: rest
      rw [List.dropLast_concat]

/-- Claim C9, witness: a concrete two-vertex polygon is returned intact. -/
theorem claim_C9_witness :
    ((LatLonSpherical.areaOf [((0 : ℝ), (0 : ℝ)), ((3 : ℝ), (7 : ℝ))] 1).map
      fun r => r.2) = some [((0 : ℝ), (0 : ℝ)), ((3 : ℝ), (7 : ℝ))] := by
  obtain ⟨out, hout⟩ : ∃ out,
      LatLonSpherical.areaOf [((0 : ℝ), (0 : ℝ)), ((3 : ℝ), (7 : ℝ))] 1 =
        some out := ⟨_, rfl⟩
  rw [hout]
  simp [claim_C9_areaOf_restores _ _ _ hout]
